import Mathlib

/-!
Shallow embedding of the MCP SDK protocol dispatch engine
(`mcp-sdk/src/{error,request,response,notifications,server}.rs`).

JSON values are embedded as an inductive `JsonValue` mirroring
`serde_json::Value` (numbers are modelled as integers: the ids and fields this
development evaluates are integral; no float arithmetic occurs anywhere in the
dispatch engine).  The conditional-compilation feature pair
`jsonrpc-1` / `jsonrpc-2` of `request.rs` / `response.rs` is embedded as an
explicit `jsonrpc1 : Bool` parameter on the response constructors: `true` is a
build with the `jsonrpc-1` feature enabled, `false` the strict
`jsonrpc-2`-only build.
-/

/-- Embedding of `serde_json::Value`.  `serde_json`'s number type also admits
floating-point values; integers suffice for every value this development
evaluates. -/
inductive JsonValue where
  | null : JsonValue
  | bool (b : Bool) : JsonValue
  | num (n : Int) : JsonValue
  | str (s : String) : JsonValue
  | arr (elems : List JsonValue) : JsonValue
  | obj (fields : List (String × JsonValue)) : JsonValue

/-- Lower-case hexadecimal digit, as used by `serde_json`'s string escaper. -/
def hex_digit (n : Nat) : Char :=
  if n < 10 then Char.ofNat (48 + n) else Char.ofNat (87 + n)

/-- Four-digit hexadecimal rendering used in `\u00XX` escapes. -/
def hex4 (n : Nat) : String :=
  String.mk [hex_digit (n / 4096 % 16), hex_digit (n / 256 % 16),
             hex_digit (n / 16 % 16), hex_digit (n % 16)]

/-- Escape one character the way `serde_json` serializes JSON strings. -/
def escape_char (c : Char) : String :=
  if c = '"' then "\\\""
  else if c = '\\' then "\\\\"
  else if c.toNat = 8 then "\\b"
  else if c.toNat = 9 then "\\t"
  else if c.toNat = 10 then "\\n"
  else if c.toNat = 12 then "\\f"
  else if c.toNat = 13 then "\\r"
  else if c.toNat < 32 then "\\u" ++ hex4 c.toNat
  else String.singleton c

/-- Escape a whole string the way `serde_json` serializes JSON strings. -/
def escape_string (s : String) : String :=
  String.join (s.data.map escape_char)

mutual

/-- Compact JSON rendering of a value: the `Display` implementation of
`serde_json::Value`, which is what `id.to_string()` invokes in
`SystemMCPServer::handle_tool_call_with_cancellation`. -/
def JsonValue.render : JsonValue → String
  | .null => "null"
  | .bool true => "true"
  | .bool false => "false"
  | .num n => toString n
  | .str s => "\"" ++ escape_string s ++ "\""
  | .arr elems => "[" ++ String.intercalate "," (render_list elems) ++ "]"
  | .obj fields => "\x7b" ++ String.intercalate "," (render_obj fields) ++ "\x7d"

/-- Render each element of a JSON array. -/
def render_list : List JsonValue → List String
  | [] => []
  | v :: vs => v.render :: render_list vs

/-- Render each `"key":value` member of a JSON object. -/
def render_obj : List (String × JsonValue) → List String
  | [] => []
  | kv :: kvs => ("\"" ++ escape_string kv.1 ++ "\":" ++ kv.2.render) :: render_obj kvs

end

/-- Embedding of `serde_json::Value::get(key)`: field lookup on an object,
`None` on every other shape. -/
def JsonValue.get (v : JsonValue) (key : String) : Option JsonValue :=
  match v with
  | .obj fields => (fields.find? (fun kv => kv.1 == key)).map (·.2)
  | _ => none

/-- Embedding of `serde_json::Value::as_str`. -/
def JsonValue.as_str : JsonValue → Option String
  | .str s => some s
  | _ => none

/-- Embedding of `MCPError` (`mcp-sdk/src/error.rs`).  `error.rs` declares
`MissingParameters` without a payload while `server.rs` constructs it with a
`String` payload (the repository snapshot is inconsistent); the payload is
carried here and, matching `error.rs`, ignored by the `Display` message and the
code mapping.  `IoError` / `JsonError` wrap external error types; only their
message text is modelled. -/
inductive MCPError where
  | InvalidJsonRpcVersion (s : String) : MCPError
  | MethodNotFound (s : String) : MCPError
  | MissingParameters (s : String) : MCPError
  | MissingToolName : MCPError
  | UnknownTool (s : String) : MCPError
  | UnknownPrompt (s : String) : MCPError
  | UnknownResource (s : String) : MCPError
  | ResourceNotFound (s : String) : MCPError
  | CommandTimeout : MCPError
  | OutputTooLarge : MCPError
  | StreamError (s : String) : MCPError
  | RequestCancelled (s : String) : MCPError
  | IoError (s : String) : MCPError
  | JsonError (s : String) : MCPError
  deriving DecidableEq, Repr

/-- The `thiserror`-generated `Display` message of each `MCPError` variant. -/
def MCPError.message : MCPError → String
  | .InvalidJsonRpcVersion s => "Invalid JSON-RPC version: " ++ s
  | .MethodNotFound s => "Method not found: " ++ s
  | .MissingParameters _ => "Missing parameters"
  | .MissingToolName => "Missing tool name"
  | .UnknownTool s => "Unknown tool: " ++ s
  | .UnknownPrompt s => "Unknown prompt: " ++ s
  | .UnknownResource s => "Unknown resource: " ++ s
  | .ResourceNotFound s => "Resource not found: " ++ s
  | .CommandTimeout => "Command timeout"
  | .OutputTooLarge => "Output too large"
  | .StreamError s => "Stream error: " ++ s
  | .RequestCancelled s => "Request was cancelled: " ++ s
  | .IoError s => "IO error: " ++ s
  | .JsonError s => "JSON error: " ++ s

/-- Embedding of `JsonRpcError` (`mcp-sdk/src/error.rs`). -/
structure JsonRpcError where
  code : Int
  message : String
  data : Option JsonValue

/-- Embedding of `MCPError::to_json_rpc_error` (`mcp-sdk/src/error.rs`
lines 45-57): the match arms are transcribed in order; the final wildcard arm
covers `UnknownTool`, `CommandTimeout`, `OutputTooLarge`, `StreamError`,
`IoError` and `JsonError`. -/
def MCPError.to_json_rpc_error (e : MCPError) : JsonRpcError :=
  let code : Int :=
    match e with
    | .InvalidJsonRpcVersion _ => -32600
    | .MethodNotFound _ => -32601
    | .MissingParameters _ | .MissingToolName => -32602
    | .UnknownPrompt _ | .UnknownResource _ | .ResourceNotFound _ => -32602
    | .RequestCancelled _ => -32800
    | _ => -32603
  { code := code, message := e.message, data := none }

/-- Embedding of `ProgressToken` (referenced from `mcp-sdk/src/request.rs` by
`notifications.rs`; its definition is absent from the provided sources).
Modelled from the spec: a value-equality key that is an integer or a string. -/
inductive ProgressToken where
  | num (n : Int) : ProgressToken
  | str (s : String) : ProgressToken
  deriving DecidableEq, Repr

/-- Embedding of `ServerNotification` (`mcp-sdk/src/notifications.rs`). -/
inductive ServerNotification where
  | Progress (progress_token : ProgressToken) (progress : Float)
      (message : Option String) (total : Option Nat) : ServerNotification
  | ResourceUpdated (uri : String) : ServerNotification

/-- Embedding of `ProgressSender` (`mcp-sdk/src/notifications.rs`): only the
optional token is semantic state; the mpsc sender is modelled by returning the
list of notifications a call enqueues. -/
structure ProgressSender where
  token : Option ProgressToken

/-- Embedding of `ProgressSender::send` (`notifications.rs` lines 40-50): the
list of notifications enqueued by one call — one `Progress` notification
carrying the sender's token when a token is present, nothing otherwise. -/
def ProgressSender.send (ps : ProgressSender) (progress : Float)
    (message : Option String) : List ServerNotification :=
  match ps.token with
  | some token => [ServerNotification.Progress token progress message none]
  | none => []

/-- Embedding of the `_meta` extension of `MCPRequest` carrying the optional
progress token (accessed as `req.meta.progress_token` in `server.rs`). -/
structure MetaInfo where
  progress_token : Option ProgressToken

/-- Embedding of `MCPRequest` (`mcp-sdk/src/request.rs`).  Under the
`jsonrpc-1` feature `jsonrpc` is `Option<String>`; the strict `jsonrpc-2`-only
build makes it a required `String`, represented here by the `some` values. -/
structure MCPRequest where
  jsonrpc : Option String
  id : Option JsonValue
  method : String
  params : Option JsonValue
  meta : Option MetaInfo

/-- Embedding of `MCPRequest::jsonrpc_version`. -/
def MCPRequest.jsonrpc_version (req : MCPRequest) : Option String :=
  req.jsonrpc

/-- Embedding of `MCPRequest::is_notification`: a request with no id. -/
def MCPRequest.is_notification (req : MCPRequest) : Bool :=
  req.id.isNone

/-- Embedding of `JsonRpcVersion` (`mcp-sdk/src/server.rs`). -/
inductive JsonRpcVersion where
  | V1_0 : JsonRpcVersion
  | V2_0 : JsonRpcVersion
  deriving DecidableEq, Repr

/-- Embedding of `MCPResponse` (`mcp-sdk/src/response.rs`).  The version field
is `Option<String>` under the `jsonrpc-1` feature; the `jsonrpc-2`-only build's
required `String` field is represented by the `some` values. -/
structure MCPResponse where
  jsonrpc : Option String
  id : Option JsonValue
  result : Option JsonValue
  error : Option JsonRpcError

/-- Embedding of `MCPResponse::v1_success` (`response.rs` lines 70-78). -/
def MCPResponse.v1_success (id : Option JsonValue) (result : JsonValue) : MCPResponse :=
  { jsonrpc := none, id := id, result := some result, error := none }

/-- Embedding of `MCPResponse::v1_error` (`response.rs` lines 81-89): the 1.0
style sets the null sentinel in `result` beside the error. -/
def MCPResponse.v1_error (id : Option JsonValue) (error : JsonRpcError) : MCPResponse :=
  { jsonrpc := none, id := id, result := some JsonValue.null, error := some error }

/-- Embedding of `MCPResponse::v2_success` (`response.rs` lines 92-103). -/
def MCPResponse.v2_success (id : Option JsonValue) (result : JsonValue) : MCPResponse :=
  { jsonrpc := some "2.0", id := id, result := some result, error := none }

/-- Embedding of `MCPResponse::v2_error` (`response.rs` lines 106-117). -/
def MCPResponse.v2_error (id : Option JsonValue) (error : JsonRpcError) : MCPResponse :=
  { jsonrpc := some "2.0", id := id, result := none, error := some error }

/-- Embedding of `MCPResponse::success` (`response.rs` lines 119-129): the
constructor is selected by conditional compilation, not at run time — a
`jsonrpc-1` build always produces the 1.0 shape, the `jsonrpc-2`-only build
always the 2.0 shape. -/
def MCPResponse.success (jsonrpc1 : Bool) (id : Option JsonValue)
    (result : JsonValue) : MCPResponse :=
  if jsonrpc1 then MCPResponse.v1_success id result else MCPResponse.v2_success id result

/-- Embedding of `MCPResponse::error` (`response.rs` lines 131-141), selected
by conditional compilation exactly like `MCPResponse::success`.  Named
`mk_error` here because the structure already has a field called `error`. -/
def MCPResponse.mk_error (jsonrpc1 : Bool) (id : Option JsonValue)
    (error : JsonRpcError) : MCPResponse :=
  if jsonrpc1 then MCPResponse.v1_error id error else MCPResponse.v2_error id error

/-- Embedding of `SystemMCPServer::validate_and_detect_version` (`server.rs`
lines 178-184). -/
def validate_and_detect_version (req : MCPRequest) : Except MCPError JsonRpcVersion :=
  match req.jsonrpc_version with
  | some "2.0" => Except.ok JsonRpcVersion.V2_0
  | some "1.0" | none => Except.ok JsonRpcVersion.V1_0
  | some other => Except.error (MCPError.InvalidJsonRpcVersion other)

/-- Observable side effects of the cancellation path: the oneshot completion
signal being fired (`cancel_tx.send(())`) and the capability hook
`on_request_cancelled(id, reason)` being invoked. -/
inductive Event where
  | signal_fired (id : String) : Event
  | hook_invoked (id : String) (reason : Option String) : Event
  deriving DecidableEq, Repr

/-- Mutable state of `SystemMCPServer`: the cancellation registry
`active_requests : HashMap<String, oneshot::Sender<()>>` is modelled by the set
of keys holding a live sender (registering an id anew replaces the prior
sender, which is exactly idempotent insertion on the key set), and the
subscription set `subscriptions : HashSet<String>`. -/
structure ServerState where
  active_requests : Finset String
  subscriptions : Finset String
  deriving DecidableEq

/-- Concurrency oracle for the `tokio::select!` in
`handle_tool_call_with_cancellation` (`server.rs` lines 378-381).
`cancel_fired` says the oneshot cancellation signal had been fired by the time
the select resolved (the embedded capability call is a total function, so its
result is always ready as well); `poll_tool_first` says which branch the
macro's randomized polling order visits first — `tokio::select!` without the
`biased;` keyword polls its branches in random order on every wakeup. -/
structure Interference where
  cancel_fired : Bool
  poll_tool_first : Bool
  deriving DecidableEq, Repr

/-- Embedding of the `ToolHandler` capability trait (`server.rs` lines 23-51)
as a record of total functions.  The `serde_json::to_value` step applied to
each handler DTO is modelled by letting results already be `JsonValue`s; the
progress sender threaded into `call_tool` is modelled separately by
`ProgressSender.send`, and the `on_request_cancelled` hook by `Event`s. -/
structure Handler where
  initialize_fn : Except MCPError JsonValue
  list_tools : Option String → Except MCPError JsonValue
  call_tool : String → JsonValue → Except MCPError JsonValue
  list_resources : Option String → Except MCPError JsonValue
  read_resource : String → Except MCPError JsonValue
  list_prompts : Option String → Except MCPError JsonValue
  get_prompt : String → JsonValue → Except MCPError JsonValue
  ping : Except MCPError JsonValue
  list_resource_templates : Option String → Except MCPError JsonValue
  subscribe : String → Except MCPError JsonValue
  unsubscribe : String → Except MCPError JsonValue
  set_log_level : String → Except MCPError JsonValue
  complete : JsonValue → Except MCPError JsonValue

/-- Cursor extraction shared by the four list methods:
`params.and_then(|p| p.get("cursor")).and_then(|v| v.as_str())`. -/
def cursor_of (req : MCPRequest) : Option String :=
  (req.params.bind (fun p => p.get "cursor")).bind JsonValue.as_str

/-- The registration key of `handle_tool_call_with_cancellation`
(`server.rs` lines 365-369): the JSON rendering of the request id, or
`"unknown"` when the id is absent. -/
def request_key (req : MCPRequest) : String :=
  match req.id with
  | some v => v.render
  | none => "unknown"

/-- Embedding of `SystemMCPServer::handle_tool_call` (`server.rs`
lines 386-403). -/
def handle_tool_call (h : Handler) (req : MCPRequest) : Except MCPError JsonValue :=
  match req.params with
  | none => Except.error (MCPError.MissingParameters "Missing 'params' for tools/call")
  | some params =>
    match (params.get "name").bind JsonValue.as_str with
    | none => Except.error MCPError.MissingToolName
    | some name =>
      let args := (params.get "arguments").getD JsonValue.null
      h.call_tool name args

/-- Embedding of `SystemMCPServer::handle_tool_call_with_cancellation`
(`server.rs` lines 361-384): the request key is inserted into the registry, the
capability call is raced against the cancellation signal with `tokio::select!`
(resolved here by the `Interference` oracle: when the signal has fired and the
cancellation branch is polled first, the synthesized `RequestCancelled` wins),
and the key is unconditionally removed afterwards. -/
def handle_tool_call_with_cancellation (h : Handler) (itf : Interference)
    (st : ServerState) (req : MCPRequest) :
    Except MCPError JsonValue × ServerState :=
  let key := request_key req
  let st1 : ServerState := { st with active_requests := insert key st.active_requests }
  let result :=
    if itf.cancel_fired && !itf.poll_tool_first then
      Except.error (MCPError.RequestCancelled key)
    else
      handle_tool_call h req
  (result, { st1 with active_requests := st1.active_requests.erase key })

/-- Embedding of `SystemMCPServer::handle_resource_read` (`server.rs`
lines 405-416). -/
def handle_resource_read (h : Handler) (req : MCPRequest) : Except MCPError JsonValue :=
  match req.params with
  | none => Except.error (MCPError.MissingParameters "Missing 'params' for resources/read")
  | some params =>
    match (params.get "uri").bind JsonValue.as_str with
    | none => Except.error (MCPError.MissingParameters "Missing 'uri' for resources/read")
    | some uri => h.read_resource uri

/-- Embedding of `SystemMCPServer::handle_prompt_get` (`server.rs`
lines 418-431). -/
def handle_prompt_get (h : Handler) (req : MCPRequest) : Except MCPError JsonValue :=
  match req.params with
  | none => Except.error (MCPError.MissingParameters "Missing 'params' for prompts/get")
  | some params =>
    match (params.get "name").bind JsonValue.as_str with
    | none => Except.error (MCPError.MissingParameters "Missing 'name' in params for prompts/get")
    | some name =>
      let args := (params.get "arguments").getD JsonValue.null
      h.get_prompt name args

/-- The `resources/subscribe` / `resources/unsubscribe` parameter validation
(`server.rs` lines 263-272 and 279-288): the `params` object is required with
`MissingParameters("params object")`, the string field `uri` with
`MissingParameters("uri")`. -/
def sub_uri (req : MCPRequest) : Except MCPError String :=
  match req.params with
  | none => Except.error (MCPError.MissingParameters "params object")
  | some params =>
    match (params.get "uri").bind JsonValue.as_str with
    | none => Except.error (MCPError.MissingParameters "uri")
    | some uri => Except.ok uri

/-- Embedding of the method-routing `match req.method.as_str()` of
`SystemMCPServer::handle` (`server.rs` lines 200-341), producing the
`Result<Value, MCPError>` together with the updated server state (only
`tools/call`, `resources/subscribe` and `resources/unsubscribe` touch state). -/
def dispatch (h : Handler) (itf : Interference) (st : ServerState)
    (req : MCPRequest) : Except MCPError JsonValue × ServerState :=
  match req.method with
  | "initialize" => (h.initialize_fn, st)
  | "ping" => (h.ping, st)
  | "tools/list" => (h.list_tools (cursor_of req), st)
  | "tools/call" => handle_tool_call_with_cancellation h itf st req
  | "resources/list" => (h.list_resources (cursor_of req), st)
  | "resources/read" => (handle_resource_read h req, st)
  | "resources/templates/list" => (h.list_resource_templates (cursor_of req), st)
  | "resources/subscribe" =>
    (match sub_uri req with
     | Except.error e => (Except.error e, st)
     | Except.ok uri =>
       match h.subscribe uri with
       | Except.error e => (Except.error e, st)
       | Except.ok v =>
         (Except.ok v, { st with subscriptions := insert uri st.subscriptions }))
  | "resources/unsubscribe" =>
    (match sub_uri req with
     | Except.error e => (Except.error e, st)
     | Except.ok uri =>
       match h.unsubscribe uri with
       | Except.error e => (Except.error e, st)
       | Except.ok v =>
         (Except.ok v, { st with subscriptions := st.subscriptions.erase uri }))
  | "prompts/list" => (h.list_prompts (cursor_of req), st)
  | "prompts/get" => (handle_prompt_get h req, st)
  | "logging/setLevel" =>
    (match req.params with
     | none => (Except.error (MCPError.MissingParameters "params object"), st)
     | some params =>
       match (params.get "level").bind JsonValue.as_str with
       | none => (Except.error (MCPError.MissingParameters "level"), st)
       | some level => (h.set_log_level level, st))
  | "completion/complete" =>
    (match req.params with
     | none => (Except.error (MCPError.MissingParameters "params object"), st)
     | some params => (h.complete params, st))
  | other => (Except.error (MCPError.MethodNotFound other), st)

/-- Embedding of `SystemMCPServer::handle_cancellation` (`server.rs`
lines 349-359): when `params.requestId` is a JSON string whose text is a key in
the registry, the entry is removed, its completion signal fired and the
capability hook invoked with the optional `reason`; every other case — missing
params, non-string `requestId`, absent key — is a silent no-op. -/
def handle_cancellation (st : ServerState) (req : MCPRequest) :
    ServerState × List Event :=
  match req.params with
  | none => (st, [])
  | some params =>
    match (params.get "requestId").bind JsonValue.as_str with
    | none => (st, [])
    | some request_id =>
      let reason := (params.get "reason").bind JsonValue.as_str
      if request_id ∈ st.active_requests then
        ({ st with active_requests := st.active_requests.erase request_id },
         [Event.signal_fired request_id, Event.hook_invoked request_id reason])
      else
        (st, [])

/-- Embedding of `SystemMCPServer::handle` (`server.rs` lines 186-347).  The
detected version is bound to `_version` in the source and never used again:
response shaping depends only on the compile-time feature selection
(`jsonrpc1`).  The return value is the optional response, the updated server
state and the cancellation-path events. -/
def handle (h : Handler) (jsonrpc1 : Bool) (itf : Interference)
    (st : ServerState) (req : MCPRequest) :
    Option MCPResponse × ServerState × List Event :=
  let _version := (validate_and_detect_version req).toOption.getD JsonRpcVersion.V2_0
  if req.is_notification then
    if req.method = "notifications/cancelled" then
      let (st1, events) := handle_cancellation st req
      (none, st1, events)
    else
      (none, st, [])
  else
    let (result, st1) := dispatch h itf st req
    match result with
    | Except.ok res => (some (MCPResponse.success jsonrpc1 req.id res), st1, [])
    | Except.error err =>
      (some (MCPResponse.mk_error jsonrpc1 req.id err.to_json_rpc_error), st1, [])

/-- The thirteen method names routed by the dispatcher (`server.rs`
lines 200-340). -/
def routed_methods : List String :=
  ["initialize", "ping", "tools/list", "tools/call", "resources/list",
   "resources/read", "resources/templates/list", "resources/subscribe",
   "resources/unsubscribe", "prompts/list", "prompts/get", "logging/setLevel",
   "completion/complete"]

/-- A concrete capability implementation whose operations all succeed with an
empty object, used to evaluate the dispatcher at concrete inputs. -/
def trivial_handler : Handler :=
  { initialize_fn := Except.ok (JsonValue.obj [])
    list_tools := fun _ => Except.ok (JsonValue.obj [])
    call_tool := fun _ _ => Except.ok (JsonValue.obj [])
    list_resources := fun _ => Except.ok (JsonValue.obj [])
    read_resource := fun _ => Except.ok (JsonValue.obj [])
    list_prompts := fun _ => Except.ok (JsonValue.obj [])
    get_prompt := fun _ _ => Except.ok (JsonValue.obj [])
    ping := Except.ok (JsonValue.obj [])
    list_resource_templates := fun _ => Except.ok (JsonValue.obj [])
    subscribe := fun _ => Except.ok (JsonValue.obj [])
    unsubscribe := fun _ => Except.ok (JsonValue.obj [])
    set_log_level := fun _ => Except.ok (JsonValue.obj [])
    complete := fun _ => Except.ok (JsonValue.obj []) }

/-- The empty server state: no in-flight requests, no subscriptions. -/
def st0 : ServerState := { active_requests := ∅, subscriptions := ∅ }

/-- A quiet concurrency oracle: no cancellation signal pending. -/
def itf0 : Interference := { cancel_fired := false, poll_tool_first := true }

/-- The request `{"jsonrpc":"2.0","id":1,"method":"ping"}`. -/
def req_v2_ping : MCPRequest :=
  { jsonrpc := some "2.0", id := some (JsonValue.num 1), method := "ping",
    params := none, meta := none }

/-- The request `{"jsonrpc":"1.0","id":1,"method":"nope"}`. -/
def req_v1_unknown : MCPRequest :=
  { jsonrpc := some "1.0", id := some (JsonValue.num 1), method := "nope",
    params := none, meta := none }

/-- The request `{"id":3,"method":"bogus"}`. -/
def req_bogus : MCPRequest :=
  { jsonrpc := none, id := some (JsonValue.num 3), method := "bogus",
    params := none, meta := none }

/-- The request `{"jsonrpc":"2.0","id":7,"method":"tools/call",
"params":{"name":"t"}}`. -/
def req_tool7 : MCPRequest :=
  { jsonrpc := some "2.0", id := some (JsonValue.num 7), method := "tools/call",
    params := some (JsonValue.obj [("name", JsonValue.str "t")]), meta := none }

/-- The request `{"id":4,"method":"resources/subscribe",
"params":{"uri":"file:///x"}}`. -/
def req_sub_x : MCPRequest :=
  { jsonrpc := none, id := some (JsonValue.num 4), method := "resources/subscribe",
    params := some (JsonValue.obj [("uri", JsonValue.str "file:///x")]), meta := none }

/-- The inbound notification `{"method":"notifications/cancelled",
"params":{"requestId":key, "reason":reason}}` with a string `requestId`. -/
def cancel_req (key : String) (reason : Option String) : MCPRequest :=
  { jsonrpc := none, id := none, method := "notifications/cancelled",
    params := some (JsonValue.obj
      ([("requestId", JsonValue.str key)] ++
       (match reason with
        | some r => [("reason", JsonValue.str r)]
        | none => []))),
    meta := none }

/-- The inbound notification `{"method":"notifications/cancelled",
"params":{"requestId":k, ...}}` whose `requestId` is a JSON number. -/
def cancel_req_num (k : Int) (reason : Option String) : MCPRequest :=
  { jsonrpc := none, id := none, method := "notifications/cancelled",
    params := some (JsonValue.obj
      ([("requestId", JsonValue.num k)] ++
       (match reason with
        | some r => [("reason", JsonValue.str r)]
        | none => []))),
    meta := none }

/-- The inbound notification `{"method":"notifications/cancelled",
"params":{"requestId":w, ...}}` with an arbitrary JSON value as `requestId`. -/
def cancel_req_val (w : JsonValue) (reason : Option String) : MCPRequest :=
  { jsonrpc := none, id := none, method := "notifications/cancelled",
    params := some (JsonValue.obj
      ([("requestId", w)] ++
       (match reason with
        | some r => [("reason", JsonValue.str r)]
        | none => []))),
    meta := none }

/-- Evaluation of `handle_cancellation` on a string-keyed cancellation
notification: the entry is removed and signal plus hook fire exactly when the
key is registered. -/
theorem handle_cancellation_cancel_req (st : ServerState) (key : String)
    (reason : Option String) :
    handle_cancellation st (cancel_req key reason) =
      if key ∈ st.active_requests then
        ({ st with active_requests := st.active_requests.erase key },
         [Event.signal_fired key, Event.hook_invoked key reason])
      else (st, []) := by
  cases reason <;>
    simp [handle_cancellation, cancel_req, JsonValue.get, JsonValue.as_str, List.find?]

/-- Evaluation of `handle_cancellation` on a number-keyed cancellation
notification: `Value::as_str` fails, so nothing happens. -/
theorem handle_cancellation_cancel_req_num (st : ServerState) (k : Int)
    (reason : Option String) :
    handle_cancellation st (cancel_req_num k reason) = (st, []) := by
  cases reason <;>
    simp [handle_cancellation, cancel_req_num, JsonValue.get, JsonValue.as_str, List.find?]

/-- C5: `to_json_rpc_error` maps each failure kind to its fixed code:
`InvalidJsonRpcVersion` to -32600, `MethodNotFound` to -32601,
`MissingParameters` / `MissingToolName` / `UnknownPrompt` / `UnknownResource` /
`ResourceNotFound` to -32602, `RequestCancelled` to -32800, and every remaining
kind (`UnknownTool`, `CommandTimeout`, `OutputTooLarge`, `StreamError`,
`IoError`, `JsonError`) to -32603. -/
theorem error_code_table (s : String) :
    (MCPError.InvalidJsonRpcVersion s).to_json_rpc_error.code = -32600 ∧
    (MCPError.MethodNotFound s).to_json_rpc_error.code = -32601 ∧
    (MCPError.MissingParameters s).to_json_rpc_error.code = -32602 ∧
    MCPError.MissingToolName.to_json_rpc_error.code = -32602 ∧
    (MCPError.UnknownPrompt s).to_json_rpc_error.code = -32602 ∧
    (MCPError.UnknownResource s).to_json_rpc_error.code = -32602 ∧
    (MCPError.ResourceNotFound s).to_json_rpc_error.code = -32602 ∧
    (MCPError.RequestCancelled s).to_json_rpc_error.code = -32800 ∧
    (MCPError.UnknownTool s).to_json_rpc_error.code = -32603 ∧
    MCPError.CommandTimeout.to_json_rpc_error.code = -32603 ∧
    MCPError.OutputTooLarge.to_json_rpc_error.code = -32603 ∧
    (MCPError.StreamError s).to_json_rpc_error.code = -32603 ∧
    (MCPError.IoError s).to_json_rpc_error.code = -32603 ∧
    (MCPError.JsonError s).to_json_rpc_error.code = -32603 :=
  ⟨rfl, rfl, rfl, rfl, rfl, rfl, rfl, rfl, rfl, rfl, rfl, rfl, rfl, rfl⟩

/-- C4, counterexample: the three unknown-entity failures do not share one
JSON-RPC error code — `UnknownTool("missing")` maps to -32603 (it falls into
the wildcard arm of `to_json_rpc_error`) while `UnknownPrompt("missing")` maps
to -32602. -/
theorem unknown_kind_codes_differ :
    (MCPError.UnknownTool "missing").to_json_rpc_error.code = -32603 ∧
    (MCPError.UnknownPrompt "missing").to_json_rpc_error.code = -32602 ∧
    (MCPError.UnknownTool "missing").to_json_rpc_error.code ≠
      (MCPError.UnknownPrompt "missing").to_json_rpc_error.code :=
  ⟨rfl, rfl, by decide⟩

/-- C4, amended: `UnknownPrompt` and `UnknownResource` map to -32602, while
`UnknownTool` maps to -32603; the mapping is not uniform across the three. -/
theorem unknown_kind_codes (s : String) :
    (MCPError.UnknownPrompt s).to_json_rpc_error.code = -32602 ∧
    (MCPError.UnknownResource s).to_json_rpc_error.code = -32602 ∧
    (MCPError.UnknownTool s).to_json_rpc_error.code = -32603 :=
  ⟨rfl, rfl, rfl⟩

/-- C1: the version-shape law fails on the code — `handle` computes the
detected version, binds it to `_version` and never uses it, so the response
shape is fixed by the compile-time feature selection alone.  In a `jsonrpc-1`
build (`jsonrpc1 = true`) the request `{"jsonrpc":"2.0","id":1,"method":"ping"}`
is answered without any `jsonrpc` field, violating the "2.0" half of the law;
in the `jsonrpc-2`-only build (`jsonrpc1 = false`) the request
`{"jsonrpc":"1.0","id":1,"method":"nope"}` is answered with `jsonrpc:"2.0"` and
no null result sentinel beside the error, violating the "1.0" half. -/
theorem handle_ignores_detected_version :
    ((handle trivial_handler true itf0 st0 req_v2_ping).1.map
        (fun r => (r.jsonrpc, r.result.isSome, r.error.isSome)))
      = some (none, true, false) ∧
    ((handle trivial_handler false itf0 st0 req_v1_unknown).1.map
        (fun r => (r.jsonrpc, r.result, r.error.map (·.code))))
      = some (some "2.0", none, some (-32601)) :=
  ⟨rfl, rfl⟩

/-- C3: the race is not biased toward the capability result — the
`tokio::select!` at `server.rs` lines 378-381 lacks the `biased;` keyword, so
its branches are polled in random order.  With the capability result ready and
the cancellation signal fired simultaneously, polling the cancellation branch
first yields a synthesized `RequestCancelled` error (-32800) for the finished
call, while polling the capability branch first delivers its result: the
outcome depends on the poll order, so no bias exists. -/
theorem tool_call_race_not_biased :
    ((handle trivial_handler true
        { cancel_fired := true, poll_tool_first := false } st0 req_tool7).1.map
        (fun r => r.error.map (·.code)))
      = some (some (-32800)) ∧
    ((handle trivial_handler true
        { cancel_fired := true, poll_tool_first := true } st0 req_tool7).1.map
        (fun r => (r.result, r.error.isSome)))
      = some (some (JsonValue.obj []), false) :=
  ⟨rfl, rfl⟩

/-- Routing falls through to the wildcard arm for any method outside the fixed
table, producing `MethodNotFound` and leaving the state untouched. -/
theorem dispatch_unknown (h : Handler) (itf : Interference) (st : ServerState)
    (req : MCPRequest) (hm : req.method ∉ routed_methods) :
    dispatch h itf st req = (Except.error (MCPError.MethodNotFound req.method), st) := by
  unfold dispatch
  split
  all_goals first
    | rfl
    | (rename_i heq; rw [heq] at hm; simp [routed_methods] at hm)

/-- C2: `handle` returns exactly one response iff the request carries an id —
every request with an id present gets exactly one `MCPResponse` (success or
error), and every notification (id absent) gets none, for every method name
including unknown ones. -/
theorem handle_response_iff_id_present (h : Handler) (j : Bool) (itf : Interference)
    (st : ServerState) (req : MCPRequest) :
    ((handle h j itf st req).1.isSome) = req.id.isSome := by
  unfold handle
  cases hid : req.id with
  | none =>
    simp only [MCPRequest.is_notification, hid, Option.isNone_none, if_true]
    split
    · rcases handle_cancellation st req with ⟨st1, ev⟩
      rfl
    · rfl
  | some v =>
    simp only [MCPRequest.is_notification, hid, Option.isNone_some, Bool.false_eq_true,
      if_false]
    rcases hd : dispatch h itf st req with ⟨res, st1⟩
    cases res <;> simp [hd, hid]

/-- C6: every request with an id present whose method is outside the thirteen
routed names is answered with an error response whose code is -32601. -/
theorem unknown_method_code (h : Handler) (j : Bool) (itf : Interference)
    (st : ServerState) (req : MCPRequest) (hid : req.id.isSome = true)
    (hm : req.method ∉ routed_methods) :
    ((handle h j itf st req).1.map (fun r => r.error.map (·.code)))
      = some (some (-32601)) := by
  have hnotif : req.is_notification = false := by
    rcases ho : req.id with _ | v
    · rw [ho] at hid; cases hid
    · simp [MCPRequest.is_notification, ho]
  unfold handle
  rw [dispatch_unknown h itf st req hm]
  cases j <;>
    simp [hnotif, MCPResponse.mk_error, MCPResponse.v1_error, MCPResponse.v2_error,
      MCPError.to_json_rpc_error]

/-- Witness for C6: `{"id":3,"method":"bogus"}` is answered with code -32601. -/
theorem unknown_method_code_witness :
    ((handle trivial_handler true itf0 st0 req_bogus).1.map
        (fun r => r.error.map (·.code)))
      = some (some (-32601)) :=
  unknown_method_code trivial_handler true itf0 st0 req_bogus rfl (by decide)

/-- C7: `resources/subscribe` inserts the request's uri into the subscription
set exactly once and only after the capability's `subscribe` call succeeded;
`resources/unsubscribe` removes it only after the capability's `unsubscribe`
succeeded; missing params, missing uri, or a failing capability call leave the
subscription set unchanged. -/
theorem subscription_update_after_success (h : Handler) (j : Bool) (itf : Interference)
    (st : ServerState) (req : MCPRequest) (hid : req.id.isSome = true) :
    (req.method = "resources/subscribe" →
      ((∀ e, sub_uri req = Except.error e →
          ((handle h j itf st req).2.1).subscriptions = st.subscriptions) ∧
       (∀ uri, sub_uri req = Except.ok uri →
          (∀ e, h.subscribe uri = Except.error e →
             ((handle h j itf st req).2.1).subscriptions = st.subscriptions) ∧
          (∀ v, h.subscribe uri = Except.ok v →
             ((handle h j itf st req).2.1).subscriptions
               = insert uri st.subscriptions)))) ∧
    (req.method = "resources/unsubscribe" →
      ((∀ e, sub_uri req = Except.error e →
          ((handle h j itf st req).2.1).subscriptions = st.subscriptions) ∧
       (∀ uri, sub_uri req = Except.ok uri →
          (∀ e, h.unsubscribe uri = Except.error e →
             ((handle h j itf st req).2.1).subscriptions = st.subscriptions) ∧
          (∀ v, h.unsubscribe uri = Except.ok v →
             ((handle h j itf st req).2.1).subscriptions
               = st.subscriptions.erase uri)))) := by
  obtain ⟨jr, id, m, p, mta⟩ := req
  have hnotif : MCPRequest.is_notification ⟨jr, id, m, p, mta⟩ = false := by
    rcases ho : id with _ | v
    · rw [ho] at hid; simp at hid
    · simp [MCPRequest.is_notification, ho]
  constructor
  · rintro rfl
    refine ⟨fun e he => ?_, fun uri hu => ⟨fun e he => ?_, fun v hv => ?_⟩⟩
    · simp [handle, dispatch, hnotif, he]
    · simp [handle, dispatch, hnotif, hu, he]
    · simp [handle, dispatch, hnotif, hu, hv]
  · rintro rfl
    refine ⟨fun e he => ?_, fun uri hu => ⟨fun e he => ?_, fun v hv => ?_⟩⟩
    · simp [handle, dispatch, hnotif, he]
    · simp [handle, dispatch, hnotif, hu, he]
    · simp [handle, dispatch, hnotif, hu, hv]

/-- Witness for C7: subscribing to `file:///x` on the empty state (with the
capability succeeding) leaves exactly that uri in the subscription set. -/
theorem subscription_update_after_success_witness :
    ((handle trivial_handler true itf0 st0 req_sub_x).2.1).subscriptions
      = insert "file:///x" (∅ : Finset String) :=
  (((subscription_update_after_success trivial_handler true itf0 st0 req_sub_x
      rfl).1 rfl).2 "file:///x" rfl).2 (JsonValue.obj []) rfl

/-- C8: `ProgressSender::send` enqueues exactly one `Progress` notification
carrying the sender's token when a token is present; with the token absent,
any number of `send` calls enqueue zero notifications. -/
theorem progress_opt_out (tok : Option ProgressToken) (p : Float) (m : Option String) :
    (∀ t, tok = some t →
      ProgressSender.send ⟨tok⟩ p m = [ServerNotification.Progress t p m none]) ∧
    (tok = none → ∀ calls : List (Float × Option String),
      (calls.map (fun c => ProgressSender.send ⟨tok⟩ c.1 c.2)).flatten = []) := by
  constructor
  · rintro t rfl; rfl
  · rintro rfl calls
    induction calls with
    | nil => rfl
    | cons c cs ih => simp [ProgressSender.send, ih]

/-- Witness for C8: a token-carrying sender enqueues one notification with that
token; a token-free sender enqueues nothing across two calls. -/
theorem progress_opt_out_witness :
    ProgressSender.send ⟨some (ProgressToken.num 5)⟩ 0.5 none
        = [ServerNotification.Progress (ProgressToken.num 5) 0.5 none none] ∧
    (([((0.25 : Float), (none : Option String)), (0.75, some "late")]).map
        (fun c => ProgressSender.send ⟨none⟩ c.1 c.2)).flatten = [] :=
  ⟨(progress_opt_out (some (ProgressToken.num 5)) 0.5 none).1 _ rfl,
   (progress_opt_out none 0.25 none).2 rfl _⟩

/-- C9: cancelling an id absent from the registry is a silent no-op — state
unchanged, no signal fired, no hook invoked; a second cancel of the same id
after the first is a no-op; and the unconditional removal at call end after a
cancel is a no-op. -/
theorem cancel_idempotent (st : ServerState) (key : String) (reason : Option String) :
    (key ∉ st.active_requests →
      handle_cancellation st (cancel_req key reason) = (st, [])) ∧
    (handle_cancellation (handle_cancellation st (cancel_req key reason)).1
        (cancel_req key reason)
      = ((handle_cancellation st (cancel_req key reason)).1, [])) ∧
    (((handle_cancellation st (cancel_req key reason)).1).active_requests.erase key
      = ((handle_cancellation st (cancel_req key reason)).1).active_requests) := by
  refine ⟨fun hk => ?_, ?_, ?_⟩
  · rw [handle_cancellation_cancel_req, if_neg hk]
  · by_cases hk : key ∈ st.active_requests <;>
      simp [handle_cancellation_cancel_req, hk, Finset.not_mem_erase]
  · by_cases hk : key ∈ st.active_requests
    · simp [handle_cancellation_cancel_req, hk, Finset.erase_idem]
    · simp [handle_cancellation_cancel_req, hk, Finset.erase_eq_of_not_mem hk]

/-- Witness for C9: cancelling id "9" on the empty registry does nothing. -/
theorem cancel_idempotent_witness :
    handle_cancellation st0 (cancel_req "9" none) = (st0, []) :=
  (cancel_idempotent st0 "9" none).1 (by decide)

/-- A `requestId` that is not a JSON string never matches anything: `as_str`
yields `None` and `handle_cancellation` falls through. -/
theorem handle_cancellation_nonstring (st : ServerState) (w : JsonValue)
    (reason : Option String) (hw : w.as_str = none) :
    handle_cancellation st (cancel_req_val w reason) = (st, []) := by
  cases reason <;>
    simp [handle_cancellation, cancel_req_val, JsonValue.get, List.find?, hw]

/-- C10: a `tools/call` request is registered in the cancellation registry
under the JSON rendering of its id (numeric id 2 under `"2"`, the JSON string
"2" under the quoted rendering), and an inbound `notifications/cancelled`
matches an in-flight call only when its `params.requestId` is a JSON string
equal to that rendering — a non-string `requestId` (any value with
`as_str = None`, e.g. the JSON number 2) never cancels anything. -/
theorem cancellation_keying (h : Handler) (itf : Interference) (st : ServerState)
    (req : MCPRequest) (v w : JsonValue) (s : String) (reason : Option String) :
    (req.id = some v →
      (handle_tool_call_with_cancellation h itf st req).2.active_requests
        = (insert v.render st.active_requests).erase v.render) ∧
    ((JsonValue.num 2).render = "2" ∧ (JsonValue.str "2").render = "\"2\"") ∧
    (w.as_str = none → handle_cancellation st (cancel_req_val w reason) = (st, [])) ∧
    ((handle_cancellation
        { active_requests := {v.render}, subscriptions := ∅ }
        (cancel_req s reason)).2 ≠ [] ↔ s = v.render) := by
  refine ⟨fun hv => ?_, ⟨rfl, rfl⟩,
    fun hw => handle_cancellation_nonstring st w reason hw, ?_⟩
  · simp [handle_tool_call_with_cancellation, request_key, hv]
  · rw [handle_cancellation_cancel_req]
    by_cases hs : s ∈ ({v.render} : Finset String)
    · simp [hs, Finset.mem_singleton.mp hs]
    · have hne : ¬ s = v.render := fun he => hs (by simp [he])
      simp [hs, hne]

/-- Witness for C10: the `tools/call` request with numeric id 7 is keyed by
`"7"`, and a cancellation whose `requestId` is the JSON number 2 is a no-op. -/
theorem cancellation_keying_witness :
    ((handle_tool_call_with_cancellation trivial_handler itf0 st0 req_tool7).2.active_requests
      = (insert (JsonValue.num 7).render st0.active_requests).erase (JsonValue.num 7).render) ∧
    handle_cancellation st0 (cancel_req_val (JsonValue.num 2) none) = (st0, []) :=
  ⟨(cancellation_keying trivial_handler itf0 st0 req_tool7 (JsonValue.num 7)
      (JsonValue.num 2) "x" none).1 rfl,
   (cancellation_keying trivial_handler itf0 st0 req_tool7 (JsonValue.num 7)
      (JsonValue.num 2) "x" none).2.2.1 rfl⟩
